import Mathlib

/-!
Verification of `cra-append-sw` (`src/index.mjs`), a CLI that compiles or
reads an entry file and then routes the resulting text to an output file
depending on a `--mode` option.

The file system is modelled as an association list from path to content;
Node's callback-style `fs.readFile` / `fs.writeFile` become total functions
on that model, with a read of an absent path producing an `ENOENT` error.
Promises are modelled by `Except`: a promise that is rejected first and
resolved afterwards stays rejected (first settlement wins), but side effects
performed after a `reject` call still happen, which the model reproduces.
-/

namespace CraAppendSw

/-- `BUILD_SW_FILE_PATH` from `src/index.mjs` line 10. -/
def BUILD_SW_FILE_PATH : String := "build/service-worker.js"

/-- `BUNDLE_FILE_NAME` from `src/index.mjs` line 11. -/
def BUNDLE_FILE_NAME : String := "bundle.js"

/-- A file system: paths mapped to contents, most recent write first. -/
def FS : Type := List (String × String)

/-- Look a path up in the file system (first matching entry wins). -/
def lookupFS : FS → String → Option String
  | [], _ => none
  | (q, c) :: rest, p => if q = p then some c else lookupFS rest p

/-- `fs.writeFile(file, content, 'utf8', ...)`: create-or-replace a path. -/
def writeFS (fs : FS) (p c : String) : FS := (p, c) :: fs

/-- `fs.readFile(path, 'utf8', ...)`: the content when the path exists,
an `ENOENT` error otherwise. -/
def readFS (fs : FS) (p : String) : Except String String :=
  match lookupFS fs p with
  | some c => Except.ok c
  | none => Except.error ("ENOENT: " ++ p)

/-- Node's `path.basename`: drop trailing separators, then keep the part
after the last separator. -/
def basename (p : String) : String :=
  let rev := p.toList.reverse.dropWhile (fun c => c == '/')
  String.mk (rev.takeWhile (fun c => c != '/')).reverse

/-- Outcome of the `append` routine (`src/index.mjs` lines 154-187): the
settled state of the returned promise together with the file system after
all side effects performed by the routine. -/
structure AppendResult where
  outcome : Except String Unit
  fs : FS

/-- `append(code, file)` from `src/index.mjs` lines 154-187, with
`program.mode` passed explicitly.  The three named branches call
`writeFile` on their destination; the final branch reads the existing
`build/service-worker.js`, and, because its error branch lacks an early
return, a failed read still falls through to `const result = data + code`
(JavaScript coerces the undefined `data` to the string `"undefined"`) and
to the write of `result`, even though the promise is already rejected. -/
def append (mode : Option String) (code file : String) (fs : FS) : AppendResult :=
  if mode = some "dev" then
    { outcome := Except.ok (), fs := writeFS fs ("public/" ++ basename file) code }
  else if mode = some "build" then
    { outcome := Except.ok (), fs := writeFS fs ("build/" ++ basename file) code }
  else if mode = some "replace" then
    { outcome := Except.ok (), fs := writeFS fs BUILD_SW_FILE_PATH code }
  else
    match readFS fs BUILD_SW_FILE_PATH with
    | Except.error e =>
        { outcome := Except.error e
          fs := writeFS fs BUILD_SW_FILE_PATH ("undefined" ++ code) }
    | Except.ok data =>
        { outcome := Except.ok ()
          fs := writeFS fs BUILD_SW_FILE_PATH (data ++ code) }

/-- `read(entry)` from `src/index.mjs` lines 136-146.  On a read error the
callback calls `reject(error)` and then `resolve(result)`; the promise has
already settled, so the outcome is the rejection and nothing else happens. -/
def read (fs : FS) (entry : String) : Except String String :=
  readFS fs entry

/-- Webpack `stats` as `compile` consumes it: the two error predicates and
the formatted report, the latter as a function of the `errorDetails` and
`warnings` formatting options passed to `stats.toString`. -/
structure Stats where
  hasErrors : Bool
  hasWarnings : Bool
  toStringOpts : Bool → Bool → String

/-- One run of the external bundler: the callback arguments `(err, stats)`
plus the text of the single in-memory bundle artifact. -/
structure BundlerRun where
  err : Option String
  stats : Stats
  bundleText : String

/-- The `{ result, stats }` value `compile` resolves with. -/
structure CompileOk where
  result : String
  stats : Stats

/-- The promise body of `compile` (`src/index.mjs` lines 109-127): reject
on a callback error; reject with the full formatted report when the stats
have errors OR warnings; otherwise resolve with the bundle text. -/
def compile (run : BundlerRun) : Except String CompileOk :=
  match run.err with
  | some e => Except.error e
  | none =>
    if run.stats.hasErrors || run.stats.hasWarnings then
      Except.error (run.stats.toStringOpts true true)
    else
      Except.ok { result := run.bundleText, stats := run.stats }

/-- The skip-compile pipeline from `src/index.mjs` line 32:
`read(file).then(result => append(result, file))`.  A rejected read skips
the `then` continuation, so `append` never runs and the file system is
untouched. -/
def runSkipCompile (mode : Option String) (entry : String) (fs : FS) :
    Except String Unit × FS :=
  match read fs entry with
  | Except.error e => (Except.error e, fs)
  | Except.ok code =>
      let r := append mode code entry fs
      (r.outcome, r.fs)

/-- Observable steps of one invocation, in order. -/
inductive Event where
  | setEnvVar (name value : String)
  | readEntry (path : String)
  | compileEntry (path : String)
  | routeOutput
  deriving DecidableEq, Repr

/-- The value both environment variables are set to
(`src/index.mjs` lines 23-29). -/
def envValueFor (mode : Option String) : String :=
  if mode = some "dev" then "development" else "production"

/-- The event sequence of the `action` callback (`src/index.mjs` lines
22-36): set `BABEL_ENV` and `NODE_ENV`, then either read or compile the
entry file, then route the output. -/
def actionEvents (mode : Option String) (skipCompile : Bool) (entry : String) :
    List Event :=
  [Event.setEnvVar "BABEL_ENV" (envValueFor mode),
   Event.setEnvVar "NODE_ENV" (envValueFor mode)] ++
  (if skipCompile then [Event.readEntry entry] else [Event.compileEntry entry]) ++
  [Event.routeOutput]

/-- Case-folding of a string, character by character. -/
def lowerStr (s : String) : String :=
  String.mk (s.toList.map Char.toLower)

/-- Whether a raw `--mode` value matches the option pattern
`/^(dev|build|replace)$/i` (`src/index.mjs` line 21). -/
def acceptsMode (s : String) : Bool :=
  lowerStr s == "dev" || lowerStr s == "build" || lowerStr s == "replace"

/-- Commander's coercion of a `RegExp`-validated option: a matching value
is kept verbatim (the match of the anchored pattern is the whole input,
case preserved); a non-matching value falls back to the absent default. -/
def coerceMode (raw : Option String) : Option String :=
  match raw with
  | none => none
  | some s => if acceptsMode s then some s else none

/-! ### Basic file-system lemmas -/

theorem lookupFS_writeFS_same (fs : FS) (p c : String) :
    lookupFS (writeFS fs p c) p = some c := by
  simp [writeFS, lookupFS]

theorem lookupFS_writeFS_ne (fs : FS) (p q c : String) (h : q ≠ p) :
    lookupFS (writeFS fs p c) q = lookupFS fs q := by
  simp only [writeFS, lookupFS]
  rw [if_neg (fun h2 => h h2.symm)]

/-- Shared description of the default branch of `append` when the existing
service-worker file is readable. -/
theorem append_default_spec (mode : Option String) (code file pre : String) (fs : FS)
    (hdev : mode ≠ some "dev") (hbuild : mode ≠ some "build")
    (hrepl : mode ≠ some "replace")
    (hpre : lookupFS fs BUILD_SW_FILE_PATH = some pre) :
    (append mode code file fs).outcome = Except.ok () ∧
    lookupFS (append mode code file fs).fs BUILD_SW_FILE_PATH = some (pre ++ code) ∧
    ∀ q, q ≠ BUILD_SW_FILE_PATH →
      lookupFS (append mode code file fs).fs q = lookupFS fs q := by
  simp only [append, if_neg hdev, if_neg hbuild, if_neg hrepl, readFS, hpre]
  refine ⟨trivial, lookupFS_writeFS_same fs BUILD_SW_FILE_PATH (pre ++ code), ?_⟩
  intro q hq
  exact lookupFS_writeFS_ne fs BUILD_SW_FILE_PATH q (pre ++ code) hq

/-! ### Claim theorems -/

/-- C1: for an invocation whose mode is unset or unrecognized (the default
branch), the destination is the fixed path `build/service-worker.js` and,
when the existing-file read succeeds, the final content written equals the
pre-existing content of that file concatenated with the new content, in
that order, with no separator inserted; no other path is touched. -/
theorem c1_default_mode_appends (mode : Option String) (code file pre : String)
    (fs : FS)
    (hdev : mode ≠ some "dev") (hbuild : mode ≠ some "build")
    (hrepl : mode ≠ some "replace")
    (hpre : lookupFS fs BUILD_SW_FILE_PATH = some pre) :
    (append mode code file fs).outcome = Except.ok () ∧
    lookupFS (append mode code file fs).fs BUILD_SW_FILE_PATH = some (pre ++ code) ∧
    ∀ q, q ≠ BUILD_SW_FILE_PATH →
      lookupFS (append mode code file fs).fs q = lookupFS fs q :=
  append_default_spec mode code file pre fs hdev hbuild hrepl hpre

theorem c1_default_mode_appends_witness :
    lookupFS (append none "NEW" "sw.js" [(BUILD_SW_FILE_PATH, "OLD")]).fs
        BUILD_SW_FILE_PATH = some "OLDNEW" :=
  (c1_default_mode_appends none "NEW" "sw.js" "OLD" [(BUILD_SW_FILE_PATH, "OLD")]
    (by decide) (by decide) (by decide) (by decide)).2.1

/-- C2: mode `dev` writes exactly to `public/<basename(entryFilePath)>` and
mode `build` writes exactly to `build/<basename(entryFilePath)>`, in both
cases overwriting the destination with the input content verbatim and
leaving every other path unchanged. -/
theorem c2_dev_build_overwrite (code file : String) (fs : FS) :
    ((append (some "dev") code file fs).outcome = Except.ok () ∧
     lookupFS (append (some "dev") code file fs).fs
        ("public/" ++ basename file) = some code ∧
     ∀ q, q ≠ "public/" ++ basename file →
       lookupFS (append (some "dev") code file fs).fs q = lookupFS fs q) ∧
    ((append (some "build") code file fs).outcome = Except.ok () ∧
     lookupFS (append (some "build") code file fs).fs
        ("build/" ++ basename file) = some code ∧
     ∀ q, q ≠ "build/" ++ basename file →
       lookupFS (append (some "build") code file fs).fs q = lookupFS fs q) := by
  have hdev : append (some "dev") code file fs =
      { outcome := Except.ok ()
        fs := writeFS fs ("public/" ++ basename file) code } := rfl
  have hbuild : append (some "build") code file fs =
      { outcome := Except.ok ()
        fs := writeFS fs ("build/" ++ basename file) code } := rfl
  rw [hdev, hbuild]
  exact ⟨⟨rfl, lookupFS_writeFS_same fs _ code,
          fun q hq => lookupFS_writeFS_ne fs _ q code hq⟩,
         ⟨rfl, lookupFS_writeFS_same fs _ code,
          fun q hq => lookupFS_writeFS_ne fs _ q code hq⟩⟩

theorem c2_dev_build_overwrite_witness :
    lookupFS (append (some "dev") "C" "dir/sw.js"
        [("public/sw.js", "OLD")]).fs "public/sw.js" = some "C" ∧
    lookupFS (append (some "build") "C" "dir/sw.js"
        [("build/sw.js", "OLD")]).fs "build/sw.js" = some "C" :=
  ⟨(c2_dev_build_overwrite "C" "dir/sw.js" [("public/sw.js", "OLD")]).1.2.1,
   (c2_dev_build_overwrite "C" "dir/sw.js" [("build/sw.js", "OLD")]).2.2.1⟩

/-- C3: mode `replace` writes to the fixed destination
`build/service-worker.js` regardless of the entry file's base name, with
overwrite semantics: the destination ends up holding exactly the input
content, and every other path is unchanged. -/
theorem c3_replace_fixed_dest (code file : String) (fs : FS) :
    (append (some "replace") code file fs).outcome = Except.ok () ∧
    lookupFS (append (some "replace") code file fs).fs BUILD_SW_FILE_PATH
      = some code ∧
    ∀ q, q ≠ BUILD_SW_FILE_PATH →
      lookupFS (append (some "replace") code file fs).fs q = lookupFS fs q := by
  have hrepl : append (some "replace") code file fs =
      { outcome := Except.ok (), fs := writeFS fs BUILD_SW_FILE_PATH code } := rfl
  rw [hrepl]
  exact ⟨rfl, lookupFS_writeFS_same fs _ code,
         fun q hq => lookupFS_writeFS_ne fs _ q code hq⟩

theorem c3_replace_fixed_dest_witness :
    lookupFS (append (some "replace") "C" "dir/other-name.js"
        [(BUILD_SW_FILE_PATH, "OLD")]).fs BUILD_SW_FILE_PATH = some "C" :=
  (c3_replace_fixed_dest "C" "dir/other-name.js" [(BUILD_SW_FILE_PATH, "OLD")]).2.1

/-- C4: when the bundler callback reports no internal error but the stats
contain a warning (even with zero errors), `compile` rejects, and the error
payload is the full formatted report produced with `errorDetails` and
`warnings` both enabled. -/
theorem c4_warnings_fatal (run : BundlerRun)
    (herr : run.err = none) (hwarn : run.stats.hasWarnings = true) :
    compile run = Except.error (run.stats.toStringOpts true true) := by
  simp [compile, herr, hwarn]

theorem c4_warnings_fatal_witness :
    compile { err := none,
              stats := { hasErrors := false, hasWarnings := true,
                         toStringOpts := fun _ _ => "warning: demo report" },
              bundleText := "bundled" }
      = Except.error "warning: demo report" :=
  c4_warnings_fatal _ rfl rfl

/-- C5 (code bug): in the default branch, a failed read of
`build/service-worker.js` rejects the promise, yet because the error branch
lacks an early return the routine still continues along the success path and
writes `"undefined" ++ code` (JavaScript coercion of the undefined `data`)
to that very file.  Evaluated at the failing input: no mode, empty file
system, new content `"X"`. -/
theorem c5_failed_read_still_writes :
    (append none "X" "entry.js" []).outcome
        = Except.error ("ENOENT: " ++ BUILD_SW_FILE_PATH) ∧
    lookupFS (append none "X" "entry.js" []).fs BUILD_SW_FILE_PATH
        = some "undefinedX" :=
  ⟨rfl, rfl⟩

/-- C6: with `--skip-compile`, when the entry file does not exist the read
rejects with the ENOENT error, the `then` continuation (and hence `append`)
never runs, and the file system is exactly as before: zero side effects. -/
theorem c6_missing_entry_no_side_effects (mode : Option String) (entry : String)
    (fs : FS) (h : lookupFS fs entry = none) :
    (runSkipCompile mode entry fs).1 = Except.error ("ENOENT: " ++ entry) ∧
    (runSkipCompile mode entry fs).2 = fs := by
  simp [runSkipCompile, read, readFS, h]

theorem c6_missing_entry_no_side_effects_witness :
    (runSkipCompile none "missing.js" [("other.js", "O")]).2
      = [("other.js", "O")] :=
  (c6_missing_entry_no_side_effects none "missing.js" [("other.js", "O")]
    (by decide)).2

/-- C7: running the default-mode append path twice with the same new
content over an initial service-worker content `pre` leaves the file
holding `pre` followed by two copies of the content: concatenation is not
idempotent, the content is duplicated. -/
theorem c7_default_twice_duplicates (mode : Option String)
    (code file pre : String) (fs : FS)
    (hdev : mode ≠ some "dev") (hbuild : mode ≠ some "build")
    (hrepl : mode ≠ some "replace")
    (hpre : lookupFS fs BUILD_SW_FILE_PATH = some pre) :
    lookupFS (append mode code file (append mode code file fs).fs).fs
        BUILD_SW_FILE_PATH = some (pre ++ code ++ code) := by
  have h1 := append_default_spec mode code file pre fs hdev hbuild hrepl hpre
  have h2 := append_default_spec mode code file (pre ++ code)
      (append mode code file fs).fs hdev hbuild hrepl h1.2.1
  exact h2.2.1

theorem c7_default_twice_duplicates_witness :
    lookupFS (append none "C" "sw.js"
        (append none "C" "sw.js" [(BUILD_SW_FILE_PATH, "P")]).fs).fs
        BUILD_SW_FILE_PATH = some "PCC" :=
  c7_default_twice_duplicates none "C" "sw.js" "P" [(BUILD_SW_FILE_PATH, "P")]
    (by decide) (by decide) (by decide) (by decide)

/-- C8: round-trip under skip-compile with mode `dev`: reading an entry
file whose content is `contents` and routing the result writes exactly
`contents` to `public/<basename(entry)>`, with no transformation. -/
theorem c8_skip_compile_dev_roundtrip (entry contents : String) (fs : FS)
    (h : lookupFS fs entry = some contents) :
    (runSkipCompile (some "dev") entry fs).1 = Except.ok () ∧
    lookupFS (runSkipCompile (some "dev") entry fs).2
        ("public/" ++ basename entry) = some contents := by
  have hr : runSkipCompile (some "dev") entry fs =
      ((append (some "dev") contents entry fs).outcome,
       (append (some "dev") contents entry fs).fs) := by
    simp [runSkipCompile, read, readFS, h]
  have ha : append (some "dev") contents entry fs =
      { outcome := Except.ok ()
        fs := writeFS fs ("public/" ++ basename entry) contents } := rfl
  rw [hr, ha]
  exact ⟨rfl, lookupFS_writeFS_same fs _ contents⟩

theorem c8_skip_compile_dev_roundtrip_witness :
    lookupFS (runSkipCompile (some "dev") "src/sw.js"
        [("src/sw.js", "C")]).2 "public/sw.js" = some "C" :=
  (c8_skip_compile_dev_roundtrip "src/sw.js" "C" [("src/sw.js", "C")]
    (by decide)).2

/-- C9: every invocation first sets `BABEL_ENV` and `NODE_ENV` — to
`development` exactly when the mode is `dev` and to `production` for every
other mode — and only afterwards performs the read or compile step. -/
theorem c9_env_set_before_pipeline (mode : Option String) (skip : Bool)
    (entry : String) :
    (actionEvents mode skip entry)[0]? =
        some (Event.setEnvVar "BABEL_ENV" (envValueFor mode)) ∧
    (actionEvents mode skip entry)[1]? =
        some (Event.setEnvVar "NODE_ENV" (envValueFor mode)) ∧
    (mode = some "dev" → envValueFor mode = "development") ∧
    (mode ≠ some "dev" → envValueFor mode = "production") ∧
    (∀ i p, (actionEvents mode skip entry)[i]? = some (Event.readEntry p) →
        2 ≤ i) ∧
    (∀ i p, (actionEvents mode skip entry)[i]? = some (Event.compileEntry p) →
        2 ≤ i) := by
  refine ⟨?_, ?_, ?_, ?_, ?_, ?_⟩
  · cases skip <;> simp [actionEvents]
  · cases skip <;> simp [actionEvents]
  · intro h; simp [envValueFor, h]
  · intro h; simp [envValueFor, h]
  · intro i p h
    by_contra hlt
    push_neg at hlt
    cases skip <;> interval_cases i <;> simp [actionEvents] at h
  · intro i p h
    by_contra hlt
    push_neg at hlt
    cases skip <;> interval_cases i <;> simp [actionEvents] at h

theorem c9_env_set_before_pipeline_witness :
    (actionEvents (some "dev") true "sw.js")[0]? =
        some (Event.setEnvVar "BABEL_ENV" (envValueFor (some "dev"))) ∧
    envValueFor (some "dev") = "development" ∧ 2 ≤ 2 :=
  ⟨(c9_env_set_before_pipeline (some "dev") true "sw.js").1,
   (c9_env_set_before_pipeline (some "dev") true "sw.js").2.2.1 rfl,
   (c9_env_set_before_pipeline (some "dev") true "sw.js").2.2.2.2.1 2 "sw.js"
     (by simp [actionEvents])⟩

/-- C10: a mode value accepted by the case-insensitive CLI pattern but not
equal to the lowercase literals `dev`, `build`, `replace` is kept verbatim
by option coercion, selects the production environment, and is routed by
the default append branch (the destination `build/service-worker.js` ends
up with the old content concatenated with the new). -/
theorem c10_case_sensitive_routing (s : String)
    (hacc : acceptsMode s = true)
    (hd : s ≠ "dev") (hb : s ≠ "build") (hr : s ≠ "replace")
    (code file pre : String) (fs : FS)
    (hpre : lookupFS fs BUILD_SW_FILE_PATH = some pre) :
    coerceMode (some s) = some s ∧
    envValueFor (some s) = "production" ∧
    (append (some s) code file fs).outcome = Except.ok () ∧
    lookupFS (append (some s) code file fs).fs BUILD_SW_FILE_PATH
      = some (pre ++ code) := by
  have hd2 : (some s : Option String) ≠ some "dev" := by simpa using hd
  have hb2 : (some s : Option String) ≠ some "build" := by simpa using hb
  have hr2 : (some s : Option String) ≠ some "replace" := by simpa using hr
  have h := append_default_spec (some s) code file pre fs hd2 hb2 hr2 hpre
  exact ⟨by simp [coerceMode, hacc], by simp [envValueFor, hd2], h.1, h.2.1⟩

theorem c10_case_sensitive_routing_witness :
    coerceMode (some "DEV") = some "DEV" ∧
    envValueFor (some "DEV") = "production" ∧
    lookupFS (append (some "DEV") "C" "sw.js"
        [(BUILD_SW_FILE_PATH, "P")]).fs BUILD_SW_FILE_PATH = some "PC" := by
  have h := c10_case_sensitive_routing "DEV" (by decide) (by decide) (by decide)
      (by decide) "C" "sw.js" "P" [(BUILD_SW_FILE_PATH, "P")] (by decide)
  exact ⟨h.1, h.2.1, h.2.2.2⟩

end CraAppendSw
